import Mathlib

/-!
Verification of the deterministic rule engine of the customer-success
copilot (`customer_success_agent.py`, `weave_integration.py`).

The pipeline's pure post-processing logic is embedded shallowly:
 - Python strings are `String`; substring tests (`needle in haystack`)
   are `strContains`;
 - Python ints are `ℤ`, floats are modelled as exact rationals `ℚ`
   (Python's `round` is round-half-to-even, `pyRound`);
 - the LLM gateway calls are inputs of type `Except String α`: a value
   stands for a successfully parsed response, an error for any exception
   raised by the network call or by JSON parsing (the `try/except`
   blocks catch both);
 - dataclasses become structures with the same field names.
-/

namespace CSCopilot

/-- `CustomerProfile` dataclass of `customer_success_agent.py`. -/
structure CustomerProfile where
  name : String
  tier : String
  tenure_months : ℤ
  previous_sentiment : String
  support_tickets_count : ℤ
  last_interaction_date : String
deriving DecidableEq, Repr

/-- The `"sentiment"` sub-dict of the parsed sentiment/urgency analysis:
`{"label": ..., "confidence": ..., "key_indicators": [...]}`. -/
structure Sentiment where
  label : String
  confidence : ℚ
  key_indicators : List String
deriving DecidableEq, Repr

/-- The `"urgency"` sub-dict of the parsed sentiment/urgency analysis:
`{"level": ..., "reasoning": ..., "urgency_indicators": [...]}`. -/
structure Urgency where
  level : String
  reasoning : String
  urgency_indicators : List String
deriving DecidableEq, Repr

/-- The dict returned by `_analyze_sentiment_urgency`. -/
structure SentimentUrgency where
  sentiment : Sentiment
  urgency : Urgency
deriving DecidableEq, Repr

/-- The dict returned by `_build_customer_context`.  Each key that is
present only when a profile is available is an `Option`; `none` models
the key being absent from the dict (`dict.get` then returns `None`). -/
structure CustomerContext where
  profile_available : Bool
  customer_name : Option String
  tier : Option String
  tenure : Option String
  previous_sentiment : Option String
  support_history : Option String
  relationship_strength : Option String
deriving DecidableEq, Repr

/-- `AnalysisResult` dataclass of `customer_success_agent.py`. -/
structure AnalysisResult where
  sentiment : Sentiment
  urgency : Urgency
  intent : List String
  key_issues : List String
  customer_context : CustomerContext
  escalation_needed : Bool
  estimated_resolution_time : String
deriving DecidableEq, Repr

/-- The dict returned by `generate_response_suggestion`. -/
structure ResponseSuggestion where
  suggested_response : String
  tone_guidance : String
  follow_up_actions : String
deriving DecidableEq, Repr

/-! ### Python string primitives -/

/-- `needle.isPrefixL hay`: the list `needle` is an initial segment of
`hay` (Boolean test used to implement Python's `in` on strings). -/
def isPrefixL : List Char → List Char → Bool
  | [], _ => true
  | _ :: _, [] => false
  | a :: as, b :: bs => a == b && isPrefixL as bs

/-- `containsSub needle hay` is Python's `needle in hay` on the
underlying character lists. -/
def containsSub (needle : List Char) : List Char → Bool
  | [] => isPrefixL needle []
  | c :: t => isPrefixL needle (c :: t) || containsSub needle t

/-- Python's substring test `needle in haystack`. -/
def strContains (haystack needle : String) : Bool :=
  containsSub needle.data haystack.data

/-- Python's `str.lower()`: lower-case every character. -/
def strToLower (s : String) : String :=
  ⟨s.data.map Char.toLower⟩

/-! ### Escalation assessment (`_assess_escalation_need`) -/

/-- The `escalation_triggers` list of `_assess_escalation_need`. -/
def escalationTriggers : List String :=
  ["cancel", "cancellation", "terminate", "refund",
   "lawyer", "legal", "unacceptable", "terrible",
   "manager", "supervisor", "escalate"]

/-- `_assess_escalation_need(email_content, sentiment_urgency, customer_profile)`. -/
def assessEscalationNeed (email_content : String) (su : SentimentUrgency)
    (customer_profile : Option CustomerProfile) : Bool :=
  let content_lower := strToLower email_content
  let content_escalation :=
    escalationTriggers.any (fun trigger => strContains content_lower trigger)
  let high_urgency := su.urgency.level == "High" || su.urgency.level == "Critical"
  let negative_sentiment :=
    su.sentiment.label == "Frustrated" || su.sentiment.label == "Angry"
  let premium_customer :=
    match customer_profile with
    | some p => p.tier == "Premium"
    | none => false
  content_escalation || (high_urgency && negative_sentiment)
    || (premium_customer && negative_sentiment)

/-! ### Resolution-time estimate (`_estimate_resolution_time`) -/

/-- The `time_estimates` lookup table (`None` models `intent not in
time_estimates`). -/
def timeEstimates : String → Option String
  | "General Inquiry" => some "< 2 hours"
  | "Billing Dispute" => some "24-48 hours"
  | "Technical Issue" => some "4-24 hours"
  | "Feature Request" => some "Logged for future development"
  | "Account Access" => some "< 4 hours"
  | "Integration Support" => some "1-3 business days"
  | "Cancellation Request" => some "< 24 hours"
  | _ => none

/-- One iteration of the `for intent in intents` loop of
`_estimate_resolution_time`. -/
def resolutionStep (max_time : String) (intent : String) : String :=
  match timeEstimates intent with
  | some estimated_time =>
      if strContains estimated_time "business days" || strContains estimated_time "24-48"
      then estimated_time else max_time
  | none => max_time

/-- `_estimate_resolution_time(intents, escalation_needed)`. -/
def estimateResolutionTime (intents : List String) (escalation_needed : Bool) :
    String :=
  if escalation_needed then "< 2 hours (escalated)"
  else intents.foldl resolutionStep "< 2 hours"

/-! ### Decimal rendering of Python ints

`_build_customer_context` renders `f"{profile.tenure_months} months"` and
`f"{profile.support_tickets_count} previous tickets"`.  Python's `str` on an
int prints the decimal digits, with a leading `-` for negative values; we
model it by a fuel-indexed digit renderer (the fuel `n + 1` always
suffices since a number has at most `n + 1` decimal digits). -/

/-- Decimal digits of `n` as characters, most significant first
(`fuel` bounds the recursion depth). -/
def natDecimal : ℕ → ℕ → List Char
  | 0, _ => []
  | fuel + 1, n =>
    if n < 10 then [Nat.digitChar n]
    else natDecimal fuel (n / 10) ++ [Nat.digitChar (n % 10)]

/-- Python's `str` on a non-negative int. -/
def pyNatStr (n : ℕ) : String :=
  ⟨natDecimal (n + 1) n⟩

/-- Python's `str` on an int (decimal rendering, `-` sign when negative). -/
def pyIntStr (i : ℤ) : String :=
  if i < 0 then "-" ++ pyNatStr i.natAbs else pyNatStr i.natAbs

/-- Decode a list of decimal digit characters back to the number they
spell (inverse of `natDecimal` on well-formed output). -/
def decodeNatChars (l : List Char) : ℕ :=
  l.foldl (fun acc c => acc * 10 + (c.toNat - 48)) 0

/-- Decode the decimal rendering of an int: strip a leading `-` sign and
decode the digits (inverse of `pyIntStr` on its output). -/
def decodeIntChars (l : List Char) : ℤ :=
  match l with
  | [] => 0
  | c :: rest =>
    if c = '-' then -(decodeNatChars rest : ℤ)
    else (decodeNatChars (c :: rest) : ℤ)

/-- Decode the decimal rendering of an int (inverse of `pyIntStr`). -/
def decodeIntStr (s : String) : ℤ :=
  decodeIntChars s.data

/-! ### Customer context (`_build_customer_context`) and relationship
strength (`_assess_relationship_strength`) -/

/-- `_assess_relationship_strength(customer_profile)`. -/
def assessRelationshipStrength (customer_profile : CustomerProfile) : String :=
  let score : ℤ :=
    (if customer_profile.tenure_months > 24 then 2
     else if customer_profile.tenure_months > 12 then 1 else 0)
    + (if customer_profile.tier == "Premium" then 2
       else if customer_profile.tier == "Standard" then 1 else 0)
    + (if customer_profile.previous_sentiment == "Positive" then 2
       else if customer_profile.previous_sentiment == "Neutral" then 1 else 0)
    + (if customer_profile.support_tickets_count < 3 then 1 else 0)
  if score ≥ 6 then "Strong"
  else if score ≥ 4 then "Moderate"
  else "Weak"

/-- `_build_customer_context(customer_profile)`. -/
def buildCustomerContext (customer_profile : Option CustomerProfile) :
    CustomerContext :=
  match customer_profile with
  | none =>
    { profile_available := false, customer_name := none, tier := none,
      tenure := none, previous_sentiment := none, support_history := none,
      relationship_strength := none }
  | some p =>
    { profile_available := true,
      customer_name := some p.name,
      tier := some p.tier,
      tenure := some (pyIntStr p.tenure_months ++ " months"),
      previous_sentiment := some p.previous_sentiment,
      support_history := some (pyIntStr p.support_tickets_count ++ " previous tickets"),
      relationship_strength := some (assessRelationshipStrength p) }

/-! ### The LLM-backed stages and `analyze_customer_communication`

Each stage's gateway interaction (the chat-completion call followed by
`json.loads`) is an input of type `Except String α`: `Except.ok` carries a
successfully parsed value, `Except.error e` stands for any raised
exception with message `e`.  Each stage's `try/except` is the `match`. -/

/-- `_analyze_sentiment_urgency`: on success the parsed dict, on any
exception the fixed fallback analysis. -/
def analyzeSentimentUrgency (gateway : Except String SentimentUrgency) :
    SentimentUrgency :=
  match gateway with
  | Except.ok result => result
  | Except.error e =>
    { sentiment := { label := "Neutral", confidence := 0.5, key_indicators := [] },
      urgency := { level := "Medium", reasoning := "Analysis error: " ++ e,
                   urgency_indicators := [] } }

/-- `_classify_intent`: on success the parsed intent list, on any
exception `["General Inquiry"]`. -/
def classifyIntent (gateway : Except String (List String)) : List String :=
  match gateway with
  | Except.ok result => result
  | Except.error _ => ["General Inquiry"]

/-- `_extract_key_issues`: on success the parsed issue list, on any
exception the stub issue string. -/
def extractKeyIssues (gateway : Except String (List String)) : List String :=
  match gateway with
  | Except.ok result => result
  | Except.error _ => ["Unable to extract specific issues"]

/-- `analyze_customer_communication(email_content, customer_profile)`,
with the three gateway interactions passed in as explicit inputs.
The function is total: every gateway outcome yields an `AnalysisResult`. -/
def analyzeCustomerCommunication
    (gwSentiment : Except String SentimentUrgency)
    (gwIntent gwIssues : Except String (List String))
    (email_content : String) (customer_profile : Option CustomerProfile) :
    AnalysisResult :=
  let sentiment_urgency := analyzeSentimentUrgency gwSentiment
  let intent_analysis := classifyIntent gwIntent
  let key_issues := extractKeyIssues gwIssues
  let escalation_needed :=
    assessEscalationNeed email_content sentiment_urgency customer_profile
  let resolution_time := estimateResolutionTime intent_analysis escalation_needed
  { sentiment := sentiment_urgency.sentiment,
    urgency := sentiment_urgency.urgency,
    intent := intent_analysis,
    key_issues := key_issues,
    customer_context := buildCustomerContext customer_profile,
    escalation_needed := escalation_needed,
    estimated_resolution_time := resolution_time }

/-! ### Response generation post-processors -/

/-- `_get_tone_guidance(analysis)`. -/
def getToneGuidance (analysis : AnalysisResult) : String :=
  let sentiment := analysis.sentiment.label
  let urgency := analysis.urgency.level
  if (sentiment == "Angry" || sentiment == "Frustrated")
      && (urgency == "High" || urgency == "Critical") then
    "Extremely empathetic, formal, and solution-focused. Acknowledge frustration explicitly."
  else if sentiment == "Angry" || sentiment == "Frustrated" then
    "Empathetic and professional. Focus on understanding and resolving concerns."
  else if urgency == "High" || urgency == "Critical" then
    "Professional and urgent. Emphasize quick resolution timeline."
  else
    "Friendly and professional. Maintain positive relationship tone."

/-- Python's `sep.join(strings)`. -/
def pyJoin (sep : String) : List String → String
  | [] => ""
  | [x] => x
  | x :: xs => x ++ sep ++ pyJoin sep xs

/-- The `actions` list built by `_generate_follow_up_actions` before
joining. -/
def followUpActionList (analysis : AnalysisResult) : List String :=
  (if analysis.escalation_needed then ["🚨 Escalate to manager immediately"] else [])
  ++ (if "Billing Dispute" ∈ analysis.intent
      then ["💰 Review billing history and usage"] else [])
  ++ (if "Technical Issue" ∈ analysis.intent
      then ["🔧 Engage engineering team for technical review"] else [])
  ++ (if "Feature Request" ∈ analysis.intent
      then ["💡 Log feature request in product backlog"] else [])
  ++ (if analysis.customer_context.tier == some "Premium"
      then ["⭐ Apply premium support SLA (< 4 hour response)"] else [])
  ++ ["⏰ Follow up within " ++ analysis.estimated_resolution_time]

/-- `_generate_follow_up_actions(analysis)`: the actions joined with
`" | "`. -/
def generateFollowUpActions (analysis : AnalysisResult) : String :=
  pyJoin " | " (followUpActionList analysis)

/-- `generate_response_suggestion(analysis, email_content)`, with the
gateway interaction passed in: on success the generated reply together
with the two deterministic post-processors, on any exception the fixed
fallback dict of the `except` branch. -/
def generateResponseSuggestion (gateway : Except String String)
    (analysis : AnalysisResult) : ResponseSuggestion :=
  match gateway with
  | Except.ok suggested_response =>
    { suggested_response := suggested_response,
      tone_guidance := getToneGuidance analysis,
      follow_up_actions := generateFollowUpActions analysis }
  | Except.error e =>
    { suggested_response := "I apologize for the delay in my response. I'm looking into your inquiry and will get back to you shortly with a resolution.",
      tone_guidance := "Professional and apologetic",
      follow_up_actions := "Error generating actions: " ++ e }

/-! ### Business-impact calculator (`_calculate_business_impact`) -/

/-- Python's `round` to the nearest integer: round half to even. -/
def roundHalfEven (x : ℚ) : ℤ :=
  if x - ⌊x⌋ < 1/2 then ⌊x⌋
  else if 1/2 < x - ⌊x⌋ then ⌊x⌋ + 1
  else if ⌊x⌋ % 2 = 0 then ⌊x⌋ else ⌊x⌋ + 1

/-- Python's `round(x, n)` on our exact-rational model of floats. -/
def pyRound (n : ℕ) (x : ℚ) : ℚ :=
  (roundHalfEven (x * 10 ^ n) : ℚ) / 10 ^ n

/-- `x` is a number with at most `n` decimal places (the meaning of
"rounded to `n` decimal places" for a returned value). -/
def isRoundedTo (n : ℕ) (x : ℚ) : Prop :=
  (x * 10 ^ n).den = 1

instance (n : ℕ) (x : ℚ) : Decidable (isRoundedTo n x) := by
  unfold isRoundedTo; infer_instance

/-- The dict returned by `_calculate_business_impact`. -/
structure BusinessImpact where
  time_saved_minutes : ℚ
  cost_savings_dollars : ℚ
  quality_improvement_points : ℚ
  estimated_satisfaction_improvement : ℚ
  processing_efficiency : ℚ
  business_value_score : ℚ
deriving DecidableEq, Repr

/-- `_calculate_business_impact(analysis, quality_scores, processing_time)`
of `weave_integration.py` (`overall_score` is the `"overall_score"` entry
of `quality_scores`). -/
def calculateBusinessImpact (analysis : AnalysisResult) (overall_score : ℚ)
    (processing_time : ℚ) : BusinessImpact :=
  let manual_analysis_time : ℚ := 15
  let ai_analysis_time := processing_time / 60
  let time_saved := manual_analysis_time - ai_analysis_time
  let baseline_quality : ℚ := 6.5
  let ai_quality := overall_score
  let quality_improvement := max 0 (ai_quality - baseline_quality)
  let cost_per_minute_agent : ℚ := 0.83
  let cost_savings := time_saved * cost_per_minute_agent
  let satisfaction_multiplier : ℚ :=
    if analysis.escalation_needed
        && (analysis.urgency.level == "High" || analysis.urgency.level == "Critical")
    then 1.3 else 1.0
  let estimated_satisfaction_improvement :=
    quality_improvement * 0.1 * satisfaction_multiplier
  { time_saved_minutes := pyRound 2 time_saved,
    cost_savings_dollars := pyRound 2 cost_savings,
    quality_improvement_points := pyRound 2 quality_improvement,
    estimated_satisfaction_improvement := pyRound 3 estimated_satisfaction_improvement,
    processing_efficiency := pyRound 1 (manual_analysis_time / max ai_analysis_time 0.1),
    business_value_score := pyRound 2 (time_saved * quality_improvement) }

/-! ## Supporting lemmas -/

theorem isPrefixL_iff (n h : List Char) :
    isPrefixL n h = true ↔ ∃ t, h = n ++ t := by
  induction n generalizing h with
  | nil => simp [isPrefixL]
  | cons a as ih =>
    cases h with
    | nil => simp [isPrefixL]
    | cons b bs =>
      simp only [isPrefixL, Bool.and_eq_true, beq_iff_eq, ih, List.cons_append,
        List.cons.injEq]
      constructor
      · rintro ⟨rfl, t, rfl⟩; exact ⟨t, rfl, rfl⟩
      · rintro ⟨t, rfl, rfl⟩; exact ⟨rfl, t, rfl⟩

theorem containsSub_iff (n h : List Char) :
    containsSub n h = true ↔ ∃ p t, h = p ++ n ++ t := by
  induction h with
  | nil =>
    simp only [containsSub, isPrefixL_iff]
    constructor
    · rintro ⟨t, ht⟩; exact ⟨[], t, by simpa using ht⟩
    · rintro ⟨p, t, ht⟩
      rcases List.append_eq_nil.mp (List.append_eq_nil.mp ht.symm).1 with ⟨rfl, rfl⟩
      exact ⟨t, by simpa using ht⟩
  | cons c t ih =>
    simp only [containsSub, Bool.or_eq_true, isPrefixL_iff, ih]
    constructor
    · rintro (⟨u, hu⟩ | ⟨p, u, hu⟩)
      · exact ⟨[], u, by simpa using hu⟩
      · exact ⟨c :: p, u, by simp [hu]⟩
    · rintro ⟨p, u, hu⟩
      cases p with
      | nil => exact Or.inl ⟨u, by simpa using hu⟩
      | cons x xs =>
        right
        refine ⟨xs, u, ?_⟩
        have := (List.cons.injEq .. ▸ hu).2
        simpa [List.append_assoc] using this

/-- `strContains h n = true` iff `n` occurs as a contiguous substring of
`h`. -/
theorem strContains_iff (h n : String) :
    strContains h n = true ↔ ∃ p t, h.data = p ++ n.data ++ t :=
  containsSub_iff n.data h.data

/-! ## C1: escalation assessment -/

/-- **C1.**  For every email, sentiment/urgency analysis and optional
profile, `_assess_escalation_need` returns `true` exactly when (a) the
lower-cased email contains one of the eleven trigger keywords as a
substring, or (b) urgency is High/Critical and sentiment is
Frustrated/Angry, or (c) a profile with tier Premium is present and
sentiment is Frustrated/Angry; in particular any email whose lower-casing
contains `"cancel"` escalates no matter what the analysis or profile say. -/
theorem assessEscalationNeed_spec (email : String) (su : SentimentUrgency)
    (profile : Option CustomerProfile) :
    (assessEscalationNeed email su profile = true ↔
      (∃ k ∈ escalationTriggers, ∃ p t, (strToLower email).data = p ++ k.data ++ t)
      ∨ ((su.urgency.level = "High" ∨ su.urgency.level = "Critical")
          ∧ (su.sentiment.label = "Frustrated" ∨ su.sentiment.label = "Angry"))
      ∨ (∃ p, profile = some p ∧ p.tier = "Premium"
          ∧ (su.sentiment.label = "Frustrated" ∨ su.sentiment.label = "Angry")))
    ∧ (strContains (strToLower email) "cancel" = true →
        assessEscalationNeed email su profile = true) := by
  constructor
  · unfold assessEscalationNeed
    cases profile with
    | none =>
      simp [List.any_eq_true, strContains_iff, Bool.or_eq_true, Bool.and_eq_true]
    | some p =>
      simp [List.any_eq_true, strContains_iff, Bool.or_eq_true, Bool.and_eq_true]
      exact or_assoc
  · intro hc
    unfold assessEscalationNeed
    have : escalationTriggers.any (fun trigger => strContains (strToLower email) trigger) = true := by
      refine List.any_eq_true.mpr ⟨"cancel", ?_, hc⟩
      simp [escalationTriggers]
    simp [this]

/-- Witness for C1: the all-caps email "Please CANCEL my account" with a
positive, low-urgency analysis and no profile is escalated. -/
theorem assessEscalationNeed_spec_witness :
    strContains (strToLower "Please CANCEL my account") "cancel" = true ∧
    assessEscalationNeed "Please CANCEL my account"
      { sentiment := { label := "Positive", confidence := 0.9, key_indicators := [] },
        urgency := { level := "Low", reasoning := "", urgency_indicators := [] } }
      none = true := by
  refine ⟨by decide, ?_⟩
  exact (assessEscalationNeed_spec "Please CANCEL my account"
    { sentiment := { label := "Positive", confidence := 0.9, key_indicators := [] },
      urgency := { level := "Low", reasoning := "", urgency_indicators := [] } }
    none).2 (by decide)

/-! ## C2: resolution-time estimator -/

/-- Spec-side (C2): the estimate an intent contributes — its table entry
when that entry contains `"business days"` or `"24-48"`, nothing
otherwise. -/
def qualifyingEstimate (intent : String) : Option String :=
  match timeEstimates intent with
  | some est =>
    if strContains est "business days" || strContains est "24-48" then some est
    else none
  | none => none

/-- Spec-side (C2): the table entry of the last intent in list order whose
entry qualifies, or `"< 2 hours"` when no intent qualifies. -/
def lastQualifyingEstimate (intents : List String) : String :=
  ((intents.filterMap qualifyingEstimate).getLast?).getD "< 2 hours"

/-- The seven fixed strings of the `time_estimates` table. -/
def resolutionTimeTable : List String :=
  ["< 2 hours", "24-48 hours", "4-24 hours", "Logged for future development",
   "< 4 hours", "1-3 business days", "< 24 hours"]

theorem resolutionStep_eq (max_time intent : String) :
    resolutionStep max_time intent = (qualifyingEstimate intent).getD max_time := by
  unfold resolutionStep qualifyingEstimate
  cases timeEstimates intent with
  | none => rfl
  | some est =>
    by_cases hq : (strContains est "business days" || strContains est "24-48") = true
    · simp [hq]
    · simp [hq]

theorem foldl_resolutionStep (intents : List String) (a : String) :
    intents.foldl resolutionStep a
      = ((intents.filterMap qualifyingEstimate).getLast?).getD a := by
  induction intents generalizing a with
  | nil => rfl
  | cons i t ih =>
    rw [List.foldl_cons, ih, resolutionStep_eq, List.filterMap_cons]
    cases h : qualifyingEstimate i with
    | none => rfl
    | some est =>
      simp only [Option.getD_some, List.getLast?_cons, Option.getD_some,
        List.getLastD_eq_getLast?]

theorem timeEstimates_mem_table (intent est : String)
    (h : timeEstimates intent = some est) : est ∈ resolutionTimeTable := by
  unfold timeEstimates at h
  split at h <;> simp_all [resolutionTimeTable]

theorem foldl_resolutionStep_mem (intents : List String) (a : String)
    (ha : a ∈ resolutionTimeTable) :
    intents.foldl resolutionStep a ∈ resolutionTimeTable := by
  induction intents generalizing a with
  | nil => exact ha
  | cons i t ih =>
    rw [List.foldl_cons, resolutionStep_eq]
    cases h : qualifyingEstimate i with
    | none => exact ih a ha
    | some est =>
      refine ih est ?_
      unfold qualifyingEstimate at h
      cases he : timeEstimates i with
      | none => rw [he] at h; exact absurd h (by simp)
      | some v =>
        rw [he] at h
        have hv : est = v := by
          by_cases hq : (strContains v "business days" || strContains v "24-48") = true
          · simp [hq] at h; exact h.symm
          · simp [hq] at h
        exact hv ▸ timeEstimates_mem_table i v he

/-- **C2.**  `_estimate_resolution_time` returns `"< 2 hours (escalated)"`
whenever escalation is flagged; otherwise it returns the table entry of
the last intent in list order whose entry contains `"business days"` or
`"24-48"` (or `"< 2 hours"` when no intent qualifies); and the result is
always one of the table's fixed strings or `"< 2 hours (escalated)"`. -/
theorem estimateResolutionTime_spec :
    (∀ intents, estimateResolutionTime intents true = "< 2 hours (escalated)")
    ∧ (∀ intents, estimateResolutionTime intents false = lastQualifyingEstimate intents)
    ∧ (∀ intents esc, estimateResolutionTime intents esc = "< 2 hours (escalated)"
        ∨ estimateResolutionTime intents esc ∈ resolutionTimeTable) := by
  refine ⟨fun intents => rfl, fun intents => ?_, fun intents esc => ?_⟩
  · unfold estimateResolutionTime lastQualifyingEstimate
    simpa using foldl_resolutionStep intents "< 2 hours"
  · cases esc with
    | true => exact Or.inl rfl
    | false =>
      refine Or.inr ?_
      unfold estimateResolutionTime
      simpa using foldl_resolutionStep_mem intents "< 2 hours" (by simp [resolutionTimeTable])

/-! ## C3: fail-soft sentiment stage -/

/-- **C3.**  Whatever exception the sentiment/urgency gateway interaction
raises (and whatever the other two gateway interactions do),
`analyze_customer_communication` still returns a complete
`AnalysisResult` whose sentiment label is `"Neutral"` with confidence
`0.5` and whose urgency level is `"Medium"`.  No exception propagates:
the embedding of `analyze` is a total function into `AnalysisResult`
(every `try/except` around a gateway interaction catches all
exceptions), so a result exists for every gateway outcome. -/
theorem analyze_sentiment_fallback (e : String)
    (gwIntent gwIssues : Except String (List String))
    (email : String) (profile : Option CustomerProfile) :
    (analyzeCustomerCommunication (Except.error e) gwIntent gwIssues
        email profile).sentiment.label = "Neutral"
    ∧ (analyzeCustomerCommunication (Except.error e) gwIntent gwIssues
        email profile).sentiment.confidence = 0.5
    ∧ (analyzeCustomerCommunication (Except.error e) gwIntent gwIssues
        email profile).urgency.level = "Medium" := by
  refine ⟨rfl, rfl, rfl⟩

/-! ## C4: response-generation fallback (corrected) -/

/-- Counterexample to C4 as stated: for the angry high-urgency analysis
below, the failure path of `generate_response_suggestion` returns the
fixed string `"Professional and apologetic"` as tone guidance, which is
not the tone guidance the deterministic post-processor
`_get_tone_guidance` computes from that analysis; the follow-up field is
an error message, not the computed action list. -/
theorem generateResponseSuggestion_fallback_counterexample :
    (generateResponseSuggestion (Except.error "timeout")
        { sentiment := { label := "Angry", confidence := 0.9, key_indicators := [] },
          urgency := { level := "High", reasoning := "", urgency_indicators := [] },
          intent := [], key_issues := [],
          customer_context := buildCustomerContext none,
          escalation_needed := true,
          estimated_resolution_time := "< 2 hours (escalated)" }).tone_guidance
      ≠ getToneGuidance
        { sentiment := { label := "Angry", confidence := 0.9, key_indicators := [] },
          urgency := { level := "High", reasoning := "", urgency_indicators := [] },
          intent := [], key_issues := [],
          customer_context := buildCustomerContext none,
          escalation_needed := true,
          estimated_resolution_time := "< 2 hours (escalated)" } := by
  decide

/-- **C4 (amended).**  When the response-generation gateway interaction
fails, `generate_response_suggestion` returns, without raising, the fixed
apologetic fallback reply together with the fixed tone-guidance string
`"Professional and apologetic"` and the follow-up string
`"Error generating actions: <error>"`; the deterministic tone guidance
and follow-up actions computed from the analysis appear only on the
success path. -/
theorem generateResponseSuggestion_error_spec (e : String)
    (analysis : AnalysisResult) :
    generateResponseSuggestion (Except.error e) analysis =
      { suggested_response := "I apologize for the delay in my response. I'm looking into your inquiry and will get back to you shortly with a resolution.",
        tone_guidance := "Professional and apologetic",
        follow_up_actions := "Error generating actions: " ++ e }
    ∧ ∀ reply, generateResponseSuggestion (Except.ok reply) analysis =
      { suggested_response := reply,
        tone_guidance := getToneGuidance analysis,
        follow_up_actions := generateFollowUpActions analysis } :=
  ⟨rfl, fun _ => rfl⟩

/-! ## C5 and C6: business-impact calculator -/

theorem pyRound_eq_self (n : ℕ) (x : ℚ) (h : (x * 10 ^ n).den = 1) :
    pyRound n x = x := by
  have hx : ((x * 10 ^ n).num : ℚ) = x * 10 ^ n := by
    conv_rhs => rw [← Rat.num_div_den (x * 10 ^ n)]
    rw [h]
    simp
  have hfloor : ⌊x * 10 ^ n⌋ = (x * 10 ^ n).num := by
    rw [← hx, Int.floor_intCast, Rat.num_intCast]
  unfold pyRound roundHalfEven
  rw [hfloor]
  rw [if_pos (by rw [hx]; norm_num)]
  rw [hx]
  exact mul_div_cancel_right₀ x (by positivity)

theorem isRoundedTo_pyRound (n : ℕ) (x : ℚ) : isRoundedTo n (pyRound n x) := by
  unfold isRoundedTo pyRound
  rw [div_mul_cancel₀]
  · exact Rat.den_intCast _
  · positivity

/-- **C5.**  With processing time 180 s, overall quality score 8.1 and an
analysis that is not an escalated High/Critical-urgency case (so the
satisfaction multiplier is 1.0), `_calculate_business_impact` returns
time saved 12.0 min, cost savings 9.96 $, quality improvement 1.6,
business value score 19.2 and satisfaction improvement 0.16. -/
theorem calculateBusinessImpact_example (analysis : AnalysisResult)
    (h : ¬(analysis.escalation_needed = true
        ∧ (analysis.urgency.level = "High" ∨ analysis.urgency.level = "Critical"))) :
    (calculateBusinessImpact analysis 8.1 180).time_saved_minutes = 12
    ∧ (calculateBusinessImpact analysis 8.1 180).cost_savings_dollars = 9.96
    ∧ (calculateBusinessImpact analysis 8.1 180).quality_improvement_points = 1.6
    ∧ (calculateBusinessImpact analysis 8.1 180).business_value_score = 19.2
    ∧ (calculateBusinessImpact analysis 8.1 180).estimated_satisfaction_improvement
        = 0.16 := by
  have hcond : (analysis.escalation_needed
      && (analysis.urgency.level == "High" || analysis.urgency.level == "Critical"))
      = false := by
    cases hb : analysis.escalation_needed with
    | false => simp
    | true =>
      have h1 : analysis.urgency.level ≠ "High" := fun hh => h ⟨hb, Or.inl hh⟩
      have h2 : analysis.urgency.level ≠ "Critical" := fun hh => h ⟨hb, Or.inr hh⟩
      simp [h1, h2]
  simp only [calculateBusinessImpact, hcond, Bool.false_eq_true, if_false]
  refine ⟨?_, ?_, ?_, ?_, ?_⟩
  · rw [show (15:ℚ) - 180/60 = 12 by norm_num]
    exact pyRound_eq_self 2 12 (by norm_num [Rat.den])
  · rw [show ((15:ℚ) - 180/60) * 0.83 = 9.96 by norm_num]
    exact pyRound_eq_self 2 9.96 (by norm_num [Rat.den])
  · rw [show max 0 ((8.1:ℚ) - 6.5) = 1.6 by norm_num]
    exact pyRound_eq_self 2 1.6 (by norm_num [Rat.den])
  · rw [show ((15:ℚ) - 180/60) * max 0 ((8.1:ℚ) - 6.5) = 19.2 by norm_num]
    exact pyRound_eq_self 2 19.2 (by norm_num [Rat.den])
  · rw [show max 0 ((8.1:ℚ) - 6.5) * 0.1 * 1.0 = 0.16 by norm_num]
    exact pyRound_eq_self 3 0.16 (by norm_num [Rat.den])

/-- Witness for C5: a concrete non-escalated analysis. -/
theorem calculateBusinessImpact_example_witness :
    ¬((false : Bool) = true ∧ (("Low" : String) = "High" ∨ ("Low" : String) = "Critical"))
    ∧ (calculateBusinessImpact
        { sentiment := { label := "Neutral", confidence := 0.5, key_indicators := [] },
          urgency := { level := "Low", reasoning := "", urgency_indicators := [] },
          intent := [], key_issues := [],
          customer_context := buildCustomerContext none,
          escalation_needed := false,
          estimated_resolution_time := "< 2 hours" } 8.1 180).time_saved_minutes
        = 12 := by
  refine ⟨by simp, ?_⟩
  exact (calculateBusinessImpact_example
    { sentiment := { label := "Neutral", confidence := 0.5, key_indicators := [] },
      urgency := { level := "Low", reasoning := "", urgency_indicators := [] },
      intent := [], key_issues := [],
      customer_context := buildCustomerContext none,
      escalation_needed := false,
      estimated_resolution_time := "< 2 hours" } (by simp)).1

/-- Counterexample to C6 as stated: with quality score 6.623 (and the
non-escalated analysis below), the returned
`estimated_satisfaction_improvement` is `0.012`, which has three decimal
places — the code rounds this field with `round(..., 3)`, not to the two
decimal places the claim asserts. -/
theorem calculateBusinessImpact_rounding_counterexample :
    ¬ isRoundedTo 2
      ((calculateBusinessImpact
        { sentiment := { label := "Neutral", confidence := 0.5, key_indicators := [] },
          urgency := { level := "Low", reasoning := "", urgency_indicators := [] },
          intent := [], key_issues := [],
          customer_context := buildCustomerContext none,
          escalation_needed := false,
          estimated_resolution_time := "< 2 hours" } 6.623
          180).estimated_satisfaction_improvement) := by
  have hval : (calculateBusinessImpact
      { sentiment := { label := "Neutral", confidence := 0.5, key_indicators := [] },
        urgency := { level := "Low", reasoning := "", urgency_indicators := [] },
        intent := [], key_issues := [],
        customer_context := buildCustomerContext none,
        escalation_needed := false,
        estimated_resolution_time := "< 2 hours" } 6.623
        180).estimated_satisfaction_improvement = 0.012 := by
    simp only [calculateBusinessImpact]
    norm_num [pyRound, roundHalfEven]
  rw [hval]
  norm_num [isRoundedTo, Rat.den]

/-- **C6 (amended).**  Every numeric value returned by
`_calculate_business_impact` is rounded to 2 decimal places, except
`processing_efficiency` (1 decimal place) and
`estimated_satisfaction_improvement` (3 decimal places); and
`time_saved_minutes` is the rounding of `15 − processing_time/60` with no
clamping, so negative time savings are preserved. -/
theorem calculateBusinessImpact_rounding (analysis : AnalysisResult)
    (overall_score processing_time : ℚ) :
    isRoundedTo 2 (calculateBusinessImpact analysis overall_score
        processing_time).time_saved_minutes
    ∧ isRoundedTo 2 (calculateBusinessImpact analysis overall_score
        processing_time).cost_savings_dollars
    ∧ isRoundedTo 2 (calculateBusinessImpact analysis overall_score
        processing_time).quality_improvement_points
    ∧ isRoundedTo 3 (calculateBusinessImpact analysis overall_score
        processing_time).estimated_satisfaction_improvement
    ∧ isRoundedTo 1 (calculateBusinessImpact analysis overall_score
        processing_time).processing_efficiency
    ∧ isRoundedTo 2 (calculateBusinessImpact analysis overall_score
        processing_time).business_value_score
    ∧ (calculateBusinessImpact analysis overall_score
        processing_time).time_saved_minutes
      = pyRound 2 (15 - processing_time / 60) := by
  refine ⟨isRoundedTo_pyRound _ _, isRoundedTo_pyRound _ _, isRoundedTo_pyRound _ _,
    isRoundedTo_pyRound _ _, isRoundedTo_pyRound _ _, isRoundedTo_pyRound _ _, rfl⟩

/-! ## C7: follow-up-actions string -/

theorem pyJoin_append_singleton (sep x : String) (l : List String) :
    ∃ p, pyJoin sep (l ++ [x]) = p ++ x := by
  induction l with
  | nil => exact ⟨"", by simp [pyJoin]⟩
  | cons a t ih =>
    obtain ⟨p, hp⟩ := ih
    cases ht : t ++ [x] with
    | nil => exact absurd ht (List.append_ne_nil_of_right_ne_nil t (by simp))
    | cons c u =>
      refine ⟨a ++ sep ++ p, ?_⟩
      have hcons : pyJoin sep (a :: (t ++ [x])) = a ++ sep ++ pyJoin sep (t ++ [x]) := by
        rw [ht]; rfl
      rw [List.cons_append, hcons, hp, ← String.append_assoc]

theorem pyJoin_cons_of_ne_nil (sep a : String) (l : List String) (h : l ≠ []) :
    pyJoin sep (a :: l) = a ++ sep ++ pyJoin sep l := by
  cases l with
  | nil => exact absurd rfl h
  | cons c u => rfl

theorem pyJoin_cons_exists (sep a : String) (l : List String) (h : l ≠ []) :
    ∃ q, pyJoin sep (a :: l) = a ++ q :=
  ⟨sep ++ pyJoin sep l, by rw [pyJoin_cons_of_ne_nil sep a l h, String.append_assoc]⟩

/-- **C7.**  The follow-up-actions string is the `" | "`-join of the action
segments appended in exactly the claimed order for each condition that
holds; consequently it always ends with the
`"⏰ Follow up within <resolution-time>"` segment, and it starts with the
escalate-to-manager segment whenever escalation is needed. -/
theorem generateFollowUpActions_spec (analysis : AnalysisResult) :
    generateFollowUpActions analysis
      = pyJoin " | "
        ((if analysis.escalation_needed
            then ["🚨 Escalate to manager immediately"] else [])
         ++ (if "Billing Dispute" ∈ analysis.intent
            then ["💰 Review billing history and usage"] else [])
         ++ (if "Technical Issue" ∈ analysis.intent
            then ["🔧 Engage engineering team for technical review"] else [])
         ++ (if "Feature Request" ∈ analysis.intent
            then ["💡 Log feature request in product backlog"] else [])
         ++ (if analysis.customer_context.tier == some "Premium"
            then ["⭐ Apply premium support SLA (< 4 hour response)"] else [])
         ++ ["⏰ Follow up within " ++ analysis.estimated_resolution_time])
    ∧ (∃ p, generateFollowUpActions analysis
        = p ++ ("⏰ Follow up within " ++ analysis.estimated_resolution_time))
    ∧ (analysis.escalation_needed = true →
        ∃ q, generateFollowUpActions analysis
          = "🚨 Escalate to manager immediately" ++ q) := by
  refine ⟨rfl, ?_, ?_⟩
  · unfold generateFollowUpActions followUpActionList
    exact pyJoin_append_singleton " | " _ _
  · intro hesc
    unfold generateFollowUpActions followUpActionList
    rw [hesc]
    simp only [if_true, List.cons_append, List.nil_append]
    apply pyJoin_cons_exists
    exact List.append_ne_nil_of_right_ne_nil _ (by simp)

/-- Witness for C7: a concrete escalated analysis whose follow-up string
starts with the escalate-to-manager segment. -/
theorem generateFollowUpActions_spec_witness :
    ∃ q, generateFollowUpActions
      { sentiment := { label := "Angry", confidence := 0.9, key_indicators := [] },
        urgency := { level := "High", reasoning := "", urgency_indicators := [] },
        intent := ["Billing Dispute"], key_issues := [],
        customer_context := buildCustomerContext none,
        escalation_needed := true,
        estimated_resolution_time := "< 2 hours (escalated)" }
      = "🚨 Escalate to manager immediately" ++ q :=
  (generateFollowUpActions_spec
    { sentiment := { label := "Angry", confidence := 0.9, key_indicators := [] },
      urgency := { level := "High", reasoning := "", urgency_indicators := [] },
      intent := ["Billing Dispute"], key_issues := [],
      customer_context := buildCustomerContext none,
      escalation_needed := true,
      estimated_resolution_time := "< 2 hours (escalated)" }).2.2 rfl

/-! ## C8: relationship-strength scorer -/

/-- **C8.**  `_assess_relationship_strength` is the deterministic pure
function that accumulates +2 for tenure > 24 months (else +1 for > 12),
+2 for Premium tier (else +1 for Standard), +2 for previously Positive
sentiment (else +1 for Neutral), +1 for fewer than 3 support tickets, and
maps a total ≥ 6 to `"Strong"`, ≥ 4 to `"Moderate"` and anything lower to
`"Weak"`; the example profile (36 months, Premium, Positive, 2 tickets)
scores 7 and is `"Strong"`. -/
theorem assessRelationshipStrength_spec :
    (∀ p : CustomerProfile,
      assessRelationshipStrength p =
        if ((if p.tenure_months > 24 then (2:ℤ) else if p.tenure_months > 12 then 1 else 0)
            + (if p.tier = "Premium" then 2 else if p.tier = "Standard" then 1 else 0)
            + (if p.previous_sentiment = "Positive" then 2
               else if p.previous_sentiment = "Neutral" then 1 else 0)
            + (if p.support_tickets_count < 3 then 1 else 0)) ≥ 6 then "Strong"
        else if ((if p.tenure_months > 24 then (2:ℤ) else if p.tenure_months > 12 then 1 else 0)
            + (if p.tier = "Premium" then 2 else if p.tier = "Standard" then 1 else 0)
            + (if p.previous_sentiment = "Positive" then 2
               else if p.previous_sentiment = "Neutral" then 1 else 0)
            + (if p.support_tickets_count < 3 then 1 else 0)) ≥ 4 then "Moderate"
        else "Weak")
    ∧ ((if (36:ℤ) > 24 then (2:ℤ) else if (36:ℤ) > 12 then 1 else 0)
        + (if ("Premium":String) = "Premium" then 2
           else if ("Premium":String) = "Standard" then 1 else 0)
        + (if ("Positive":String) = "Positive" then 2
           else if ("Positive":String) = "Neutral" then 1 else 0)
        + (if (2:ℤ) < 3 then 1 else 0)) = 7
    ∧ assessRelationshipStrength
        { name := "Dana", tier := "Premium", tenure_months := 36,
          previous_sentiment := "Positive", support_tickets_count := 2,
          last_interaction_date := "2024-06-01" } = "Strong" := by
  refine ⟨fun p => ?_, by decide, by decide⟩
  simp only [assessRelationshipStrength, beq_iff_eq]

/-! ## C9: profile → context round trip -/

theorem decodeNatChars_append (l : List Char) (c : Char) :
    decodeNatChars (l ++ [c]) = decodeNatChars l * 10 + (c.toNat - 48) := by
  unfold decodeNatChars
  rw [List.foldl_append]
  rfl

theorem digitChar_decode : ∀ d, d < 10 → (Nat.digitChar d).toNat - 48 = d := by
  decide

theorem digitChar_ne_dash : ∀ d, d < 10 → Nat.digitChar d ≠ '-' := by
  decide

theorem decodeNatChars_natDecimal :
    ∀ (fuel n : ℕ), n < 10 ^ fuel → decodeNatChars (natDecimal fuel n) = n := by
  intro fuel
  induction fuel with
  | zero =>
    intro n hn
    have hn0 : n = 0 := by simpa using hn
    simp [hn0, natDecimal, decodeNatChars]
  | succ f ih =>
    intro n hn
    unfold natDecimal
    by_cases h10 : n < 10
    · rw [if_pos h10]
      have : decodeNatChars [Nat.digitChar n] = (Nat.digitChar n).toNat - 48 := by
        simp [decodeNatChars]
      rw [this]
      exact digitChar_decode n h10
    · rw [if_neg h10]
      have hdiv : n / 10 < 10 ^ f := by
        rw [Nat.div_lt_iff_lt_mul (by norm_num)]
        calc n < 10 ^ (f + 1) := hn
        _ = 10 ^ f * 10 := by rw [pow_succ]
      rw [decodeNatChars_append, ih (n / 10) hdiv,
        digitChar_decode (n % 10) (Nat.mod_lt n (by norm_num))]
      omega

theorem decodeNatChars_pyNatStr (n : ℕ) :
    decodeNatChars ((pyNatStr n).data) = n := by
  have hd : (pyNatStr n).data = natDecimal (n + 1) n := rfl
  rw [hd]
  refine decodeNatChars_natDecimal (n + 1) n ?_
  calc n < 10 ^ n := Nat.lt_pow_self (by norm_num) n
  _ ≤ 10 ^ (n + 1) := Nat.pow_le_pow_right (by norm_num) (Nat.le_succ n)

theorem natDecimal_mem_ne_dash :
    ∀ (fuel n : ℕ) (c : Char), c ∈ natDecimal fuel n → c ≠ '-' := by
  intro fuel
  induction fuel with
  | zero => intro n c hc; simp [natDecimal] at hc
  | succ f ih =>
    intro n c hc
    unfold natDecimal at hc
    by_cases h10 : n < 10
    · rw [if_pos h10] at hc
      have : c = Nat.digitChar n := by simpa using hc
      exact this ▸ digitChar_ne_dash n h10
    · rw [if_neg h10] at hc
      rcases List.mem_append.mp hc with h1 | h2
      · exact ih (n / 10) c h1
      · have : c = Nat.digitChar (n % 10) := by simpa using h2
        exact this ▸ digitChar_ne_dash (n % 10) (Nat.mod_lt n (by norm_num))

theorem decodeIntChars_pyIntStr (i : ℤ) :
    decodeIntChars ((pyIntStr i).data) = i := by
  unfold pyIntStr
  by_cases hneg : i < 0
  · rw [if_pos hneg]
    have hdata : (("-" : String) ++ pyNatStr i.natAbs).data
        = '-' :: (pyNatStr i.natAbs).data := by
      rw [String.data_append]; rfl
    rw [hdata]
    have : decodeIntChars ('-' :: (pyNatStr i.natAbs).data)
        = -(decodeNatChars ((pyNatStr i.natAbs).data) : ℤ) := by
      simp [decodeIntChars]
    rw [this, decodeNatChars_pyNatStr]
    omega
  · rw [if_neg hneg]
    cases hd : (pyNatStr i.natAbs).data with
    | nil =>
      have hne : (pyNatStr i.natAbs).data ≠ [] := by
        show natDecimal (i.natAbs + 1) i.natAbs ≠ []
        unfold natDecimal
        by_cases h10 : i.natAbs < 10
        · simp [h10]
        · simp [h10]
      exact absurd hd hne
    | cons c t =>
      have hmem : c ∈ natDecimal (i.natAbs + 1) i.natAbs := by
        have : c ∈ (pyNatStr i.natAbs).data := by rw [hd]; exact List.mem_cons_self c t
        exact this
      have hcne : c ≠ '-' := natDecimal_mem_ne_dash _ _ c hmem
      have : decodeIntChars (c :: t) = (decodeNatChars (c :: t) : ℤ) := by
        simp [decodeIntChars, hcne]
      rw [this, ← hd, decodeNatChars_pyNatStr]
      omega

/-- **C9.**  Deriving the `CustomerContext` from a profile loses neither
tier nor tenure: the context's tier is the profile's tier, its tenure
description is `"<tenure_months> months"` from which the decimal decoder
recovers `tenure_months` exactly (so two profiles with the same tenure
description have the same `tenure_months`), and its
`relationship_strength` is the scorer applied to the profile. -/
theorem buildCustomerContext_roundTrip (p : CustomerProfile) :
    (buildCustomerContext (some p)).tier = some p.tier
    ∧ (buildCustomerContext (some p)).tenure
        = some (pyIntStr p.tenure_months ++ " months")
    ∧ decodeIntStr (pyIntStr p.tenure_months) = p.tenure_months
    ∧ (∀ q : CustomerProfile,
        (buildCustomerContext (some p)).tenure = (buildCustomerContext (some q)).tenure
        → p.tenure_months = q.tenure_months)
    ∧ (buildCustomerContext (some p)).relationship_strength
        = some (assessRelationshipStrength p) := by
  refine ⟨rfl, rfl, decodeIntChars_pyIntStr p.tenure_months, ?_, rfl⟩
  intro q h
  simp only [buildCustomerContext, Option.some.injEq] at h
  have hd := congrArg String.data h
  rw [String.data_append, String.data_append] at hd
  have hc := List.append_cancel_right hd
  have := congrArg decodeIntChars hc
  rwa [decodeIntChars_pyIntStr, decodeIntChars_pyIntStr] at this

/-- Witness for C9: two concrete profiles that differ in every field
except tenure have the same tenure description, and the theorem recovers
the equality of their `tenure_months`. -/
theorem buildCustomerContext_roundTrip_witness :
    (buildCustomerContext (some
        { name := "Ann", tier := "Premium", tenure_months := 36,
          previous_sentiment := "Positive", support_tickets_count := 2,
          last_interaction_date := "2024-06-01" })).tenure
      = (buildCustomerContext (some
        { name := "Bob", tier := "Basic", tenure_months := 36,
          previous_sentiment := "Negative", support_tickets_count := 9,
          last_interaction_date := "2023-01-01" })).tenure
    ∧ (36 : ℤ) = 36 :=
  ⟨rfl, (buildCustomerContext_roundTrip
    { name := "Ann", tier := "Premium", tenure_months := 36,
      previous_sentiment := "Positive", support_tickets_count := 2,
      last_interaction_date := "2024-06-01" }).2.2.2.1
    { name := "Bob", tier := "Basic", tenure_months := 36,
      previous_sentiment := "Negative", support_tickets_count := 9,
      last_interaction_date := "2023-01-01" } rfl⟩

/-! ## C10: escalation depends on the profile only through its tier -/

/-- **C10.**  For any email and analysis, two present profiles that agree
on `tier` receive the same escalation decision: name, tenure, previous
sentiment, ticket count and last interaction date never influence
`_assess_escalation_need`. -/
theorem assessEscalationNeed_tier_only (email : String) (su : SentimentUrgency)
    (p q : CustomerProfile) (h : p.tier = q.tier) :
    assessEscalationNeed email su (some p) = assessEscalationNeed email su (some q) := by
  simp only [assessEscalationNeed, h]

/-- Witness for C10: two concrete Premium profiles differing in all other
fields get the same decision. -/
theorem assessEscalationNeed_tier_only_witness :
    (("Premium" : String) = "Premium")
    ∧ assessEscalationNeed "all good, thanks!"
        { sentiment := { label := "Angry", confidence := 0.8, key_indicators := [] },
          urgency := { level := "Low", reasoning := "", urgency_indicators := [] } }
        (some { name := "Ann", tier := "Premium", tenure_months := 3,
                previous_sentiment := "Positive", support_tickets_count := 0,
                last_interaction_date := "2024-06-01" })
      = assessEscalationNeed "all good, thanks!"
        { sentiment := { label := "Angry", confidence := 0.8, key_indicators := [] },
          urgency := { level := "Low", reasoning := "", urgency_indicators := [] } }
        (some { name := "Bob", tier := "Premium", tenure_months := 99,
                previous_sentiment := "Negative", support_tickets_count := 42,
                last_interaction_date := "2020-01-01" }) :=
  ⟨rfl, assessEscalationNeed_tier_only "all good, thanks!"
    { sentiment := { label := "Angry", confidence := 0.8, key_indicators := [] },
      urgency := { level := "Low", reasoning := "", urgency_indicators := [] } }
    { name := "Ann", tier := "Premium", tenure_months := 3,
      previous_sentiment := "Positive", support_tickets_count := 0,
      last_interaction_date := "2024-06-01" }
    { name := "Bob", tier := "Premium", tenure_months := 99,
      previous_sentiment := "Negative", support_tickets_count := 42,
      last_interaction_date := "2020-01-01" } rfl⟩

end CSCopilot

